import Mathlib

/-
Verification development for the Airway Device Base Service.

The repository ships only the C interface header
(src/include/airway_device_base_service.h); the implementation behind the
declared functions is not part of the sources.  Following the specification,
the data model mirrors the structs of the header, and each operation is
modelled from the specification text (GeoMath, SpatialIndex, RouteValidator,
RouteEvaluator and the boundary functions).  Floating point (C double) is
modelled by the real numbers; machine int32_t fields by Int.
-/

open Real List

/-- Geographic coordinate, mirroring struct Coordinate of the header:
latitude and longitude in degrees. -/
structure Coordinate where
  latitude : ℝ
  longitude : ℝ

/-- Airport record, mirroring struct Airport of the header
(nullable char pointers become Option String). -/
structure Airport where
  id : String
  icao : String
  iata : Option String
  name : String
  latitude : ℝ
  longitude : ℝ
  elevation : Int
  country : Option String

/-- Waypoint record, mirroring struct Waypoint of the header. -/
structure Waypoint where
  id : String
  name : String
  latitude : ℝ
  longitude : ℝ
  wtype : String
  region : Option String

/-- Coordinate of an airport. -/
def Airport.coord (a : Airport) : Coordinate := ⟨a.latitude, a.longitude⟩

/-- Coordinate of a waypoint. -/
def Waypoint.coord (w : Waypoint) : Coordinate := ⟨w.latitude, w.longitude⟩

/-- Flight plan, mirroring struct FlightPlan of the header: the route
array with its count becomes a list of waypoint keys. -/
structure FlightPlan where
  departure : String
  destination : String
  alternate : Option String
  cruise_altitude : Int
  cruise_speed : Int
  route : List String

/-- Flight route with calculated data, mirroring struct FlightRoute. -/
structure FlightRoute where
  plan : FlightPlan
  total_distance : ℝ
  estimated_time : Int

/-- Validity predicate for coordinates, from the data-model invariant of the
spec: latitude in [-90, 90] and longitude in [-180, 180]. -/
def ValidCoordinate (c : Coordinate) : Prop :=
  -90 ≤ c.latitude ∧ c.latitude ≤ 90 ∧ -180 ≤ c.longitude ∧ c.longitude ≤ 180

namespace GeoMath

/-- Modelled from the spec: Earth mean radius used for conversion to
nautical miles; the numeric policy of the spec fixes 3440.065 nm. -/
noncomputable def earthRadiusNm : ℝ := 3440.065

/-- Modelled from the spec: circumference of the Earth model used for the
radius edge case of the SpatialIndex. -/
noncomputable def earthCircumferenceNm : ℝ := 2 * π * earthRadiusNm

/-- Degrees to radians. -/
noncomputable def toRadians (d : ℝ) : ℝ := d * π / 180

/-- Modelled from the spec: great-circle distance in nautical miles by the
haversine formula, the implementation of GeoMath.distance missing from the
sources.  h is the haversine of the central angle; the distance is
2 R arcsin (sqrt h). -/
noncomputable def distance (a b : Coordinate) : ℝ :=
  let φ1 := toRadians a.latitude
  let φ2 := toRadians b.latitude
  let dLat := toRadians (b.latitude - a.latitude)
  let dLon := toRadians (b.longitude - a.longitude)
  let h := Real.sin (dLat / 2) ^ 2 +
    Real.cos φ1 * Real.cos φ2 * Real.sin (dLon / 2) ^ 2
  2 * earthRadiusNm * Real.arcsin (Real.sqrt h)

theorem earthRadiusNm_pos : (0 : ℝ) < earthRadiusNm := by
  unfold earthRadiusNm; norm_num

/-- The haversine argument of a pair of coordinates. -/
noncomputable def hav (a b : Coordinate) : ℝ :=
  Real.sin (toRadians (b.latitude - a.latitude) / 2) ^ 2 +
    Real.cos (toRadians a.latitude) * Real.cos (toRadians b.latitude) *
      Real.sin (toRadians (b.longitude - a.longitude) / 2) ^ 2

theorem distance_eq_hav (a b : Coordinate) :
    distance a b = 2 * earthRadiusNm * Real.arcsin (Real.sqrt (hav a b)) := rfl

/-- Spherical dot product of the unit vectors of two coordinates. -/
noncomputable def dotC (a b : Coordinate) : ℝ :=
  Real.sin (toRadians a.latitude) * Real.sin (toRadians b.latitude) +
    Real.cos (toRadians a.latitude) * Real.cos (toRadians b.latitude) *
      Real.cos (toRadians a.longitude - toRadians b.longitude)

theorem hav_eq_dot (a b : Coordinate) : hav a b = (1 - dotC a b) / 2 := by
  unfold hav dotC toRadians
  have h1 : Real.sin ((b.latitude - a.latitude) * π / 180 / 2) ^ 2 =
      1 / 2 - Real.cos ((b.latitude - a.latitude) * π / 180) / 2 := by
    rw [sin_sq_eq_half_sub]
    ring_nf
  have h2 : Real.sin ((b.longitude - a.longitude) * π / 180 / 2) ^ 2 =
      1 / 2 - Real.cos ((b.longitude - a.longitude) * π / 180) / 2 := by
    rw [sin_sq_eq_half_sub]
    ring_nf
  have h3 : Real.cos ((b.latitude - a.latitude) * π / 180) =
      Real.cos (b.latitude * π / 180) * Real.cos (a.latitude * π / 180) +
        Real.sin (b.latitude * π / 180) * Real.sin (a.latitude * π / 180) := by
    rw [show (b.latitude - a.latitude) * π / 180 =
      b.latitude * π / 180 - a.latitude * π / 180 by ring, Real.cos_sub]
  have h4 : Real.cos ((b.longitude - a.longitude) * π / 180) =
      Real.cos (a.longitude * π / 180 - b.longitude * π / 180) := by
    rw [show a.longitude * π / 180 - b.longitude * π / 180 =
      -((b.longitude - a.longitude) * π / 180) by ring, Real.cos_neg]
  rw [h1, h2, h3, ← h4]
  have hs := Real.sin_sq_add_cos_sq (a.latitude * π / 180)
  have ht := Real.sin_sq_add_cos_sq (b.latitude * π / 180)
  nlinarith [hs, ht]

end GeoMath

namespace GeoMath

/-- First component of the unit vector of a coordinate. -/
noncomputable def ux (c : Coordinate) : ℝ :=
  Real.cos (toRadians c.latitude) * Real.cos (toRadians c.longitude)

/-- Second component of the unit vector of a coordinate. -/
noncomputable def uy (c : Coordinate) : ℝ :=
  Real.cos (toRadians c.latitude) * Real.sin (toRadians c.longitude)

/-- Third component of the unit vector of a coordinate. -/
noncomputable def uz (c : Coordinate) : ℝ :=
  Real.sin (toRadians c.latitude)

theorem unit_vector (c : Coordinate) : ux c ^ 2 + uy c ^ 2 + uz c ^ 2 = 1 := by
  unfold ux uy uz
  have h1 := Real.sin_sq_add_cos_sq (toRadians c.latitude)
  have h2 := Real.sin_sq_add_cos_sq (toRadians c.longitude)
  nlinarith [h1, h2]

theorem dotC_eq_components (a b : Coordinate) :
    dotC a b = ux a * ux b + uy a * uy b + uz a * uz b := by
  unfold dotC ux uy uz
  rw [Real.cos_sub]
  ring

theorem cauchy_schwarz_three (x1 x2 x3 y1 y2 y3 : ℝ) :
    (x1 * y1 + x2 * y2 + x3 * y3) ^ 2 ≤
      (x1 ^ 2 + x2 ^ 2 + x3 ^ 2) * (y1 ^ 2 + y2 ^ 2 + y3 ^ 2) := by
  nlinarith [sq_nonneg (x1 * y2 - x2 * y1), sq_nonneg (x1 * y3 - x3 * y1),
    sq_nonneg (x2 * y3 - x3 * y2)]

theorem dotC_sq_le_one (a b : Coordinate) : dotC a b ^ 2 ≤ 1 := by
  rw [dotC_eq_components]
  have h := cauchy_schwarz_three (ux a) (uy a) (uz a) (ux b) (uy b) (uz b)
  rw [unit_vector a, unit_vector b] at h
  linarith

theorem neg_one_le_dotC (a b : Coordinate) : -1 ≤ dotC a b := by
  nlinarith [dotC_sq_le_one a b]

theorem dotC_le_one (a b : Coordinate) : dotC a b ≤ 1 := by
  nlinarith [dotC_sq_le_one a b]

theorem two_arcsin_sqrt_eq_arccos {D : ℝ} (h1 : -1 ≤ D) (h2 : D ≤ 1) :
    2 * Real.arcsin (Real.sqrt ((1 - D) / 2)) = Real.arccos D := by
  set s := Real.sqrt ((1 - D) / 2) with hs
  have harg : (0 : ℝ) ≤ (1 - D) / 2 := by linarith
  have hs0 : 0 ≤ s := Real.sqrt_nonneg _
  have hssq : s ^ 2 = (1 - D) / 2 := Real.sq_sqrt harg
  have hs1 : s ≤ 1 := by
    nlinarith [hssq, hs0]
  set t := Real.arcsin s with ht
  have ht0 : 0 ≤ t := Real.arcsin_nonneg.2 hs0
  have htp : t ≤ π / 2 := Real.arcsin_le_pi_div_two s
  have hsin : Real.sin t = s := Real.sin_arcsin (by linarith) hs1
  have hcos : Real.cos (2 * t) = D := by
    rw [Real.cos_two_mul]
    have hpyth := Real.sin_sq_add_cos_sq t
    nlinarith [hpyth, hsin, hssq]
  have : Real.arccos (Real.cos (2 * t)) = 2 * t :=
    Real.arccos_cos (by linarith) (by linarith)
  rw [hcos] at this
  linarith [this]

theorem distance_eq_arccos (a b : Coordinate) :
    distance a b = earthRadiusNm * Real.arccos (dotC a b) := by
  rw [distance_eq_hav, hav_eq_dot,
    show (2 : ℝ) * earthRadiusNm * Real.arcsin (Real.sqrt ((1 - dotC a b) / 2)) =
      earthRadiusNm * (2 * Real.arcsin (Real.sqrt ((1 - dotC a b) / 2))) by ring,
    two_arcsin_sqrt_eq_arccos (neg_one_le_dotC a b) (dotC_le_one a b)]

theorem neg_sqrt_mul_sqrt_le {t A B : ℝ} (hA : 0 ≤ A) (hB : 0 ≤ B)
    (h : t ^ 2 ≤ A * B) : -(Real.sqrt A * Real.sqrt B) ≤ t := by
  have hs1 : Real.sqrt A ^ 2 = A := Real.sq_sqrt hA
  have hs2 : Real.sqrt B ^ 2 = B := Real.sq_sqrt hB
  have hn1 : 0 ≤ Real.sqrt A := Real.sqrt_nonneg A
  have hn2 : 0 ≤ Real.sqrt B := Real.sqrt_nonneg B
  nlinarith [sq_nonneg (t + Real.sqrt A * Real.sqrt B), mul_nonneg hn1 hn2]

theorem cs_key (a1 a2 a3 b1 b2 b3 c1 c2 c3 : ℝ)
    (ha : a1 ^ 2 + a2 ^ 2 + a3 ^ 2 = 1) (hb : b1 ^ 2 + b2 ^ 2 + b3 ^ 2 = 1)
    (hc : c1 ^ 2 + c2 ^ 2 + c3 ^ 2 = 1) :
    (a1 * b1 + a2 * b2 + a3 * b3) * (b1 * c1 + b2 * c2 + b3 * c3) -
      Real.sqrt (1 - (a1 * b1 + a2 * b2 + a3 * b3) ^ 2) *
        Real.sqrt (1 - (b1 * c1 + b2 * c2 + b3 * c3) ^ 2) ≤
      a1 * c1 + a2 * c2 + a3 * c3 := by
  have hp : (a1 - (a1 * b1 + a2 * b2 + a3 * b3) * b1) ^ 2 +
      (a2 - (a1 * b1 + a2 * b2 + a3 * b3) * b2) ^ 2 +
      (a3 - (a1 * b1 + a2 * b2 + a3 * b3) * b3) ^ 2 =
      1 - (a1 * b1 + a2 * b2 + a3 * b3) ^ 2 := by
    linear_combination ha + (a1 * b1 + a2 * b2 + a3 * b3) ^ 2 * hb
  have hq : (c1 - (b1 * c1 + b2 * c2 + b3 * c3) * b1) ^ 2 +
      (c2 - (b1 * c1 + b2 * c2 + b3 * c3) * b2) ^ 2 +
      (c3 - (b1 * c1 + b2 * c2 + b3 * c3) * b3) ^ 2 =
      1 - (b1 * c1 + b2 * c2 + b3 * c3) ^ 2 := by
    linear_combination hc + (b1 * c1 + b2 * c2 + b3 * c3) ^ 2 * hb
  have hpq : (a1 - (a1 * b1 + a2 * b2 + a3 * b3) * b1) *
        (c1 - (b1 * c1 + b2 * c2 + b3 * c3) * b1) +
      (a2 - (a1 * b1 + a2 * b2 + a3 * b3) * b2) *
        (c2 - (b1 * c1 + b2 * c2 + b3 * c3) * b2) +
      (a3 - (a1 * b1 + a2 * b2 + a3 * b3) * b3) *
        (c3 - (b1 * c1 + b2 * c2 + b3 * c3) * b3) =
      (a1 * c1 + a2 * c2 + a3 * c3) -
        (a1 * b1 + a2 * b2 + a3 * b3) * (b1 * c1 + b2 * c2 + b3 * c3) := by
    linear_combination ((a1 * b1 + a2 * b2 + a3 * b3) *
      (b1 * c1 + b2 * c2 + b3 * c3)) * hb
  have hcs := cauchy_schwarz_three
    (a1 - (a1 * b1 + a2 * b2 + a3 * b3) * b1)
    (a2 - (a1 * b1 + a2 * b2 + a3 * b3) * b2)
    (a3 - (a1 * b1 + a2 * b2 + a3 * b3) * b3)
    (c1 - (b1 * c1 + b2 * c2 + b3 * c3) * b1)
    (c2 - (b1 * c1 + b2 * c2 + b3 * c3) * b2)
    (c3 - (b1 * c1 + b2 * c2 + b3 * c3) * b3)
  rw [hp, hq, hpq] at hcs
  have hA : (0 : ℝ) ≤ 1 - (a1 * b1 + a2 * b2 + a3 * b3) ^ 2 := by
    rw [← hp]; positivity
  have hB : (0 : ℝ) ≤ 1 - (b1 * c1 + b2 * c2 + b3 * c3) ^ 2 := by
    rw [← hq]; positivity
  have h := neg_sqrt_mul_sqrt_le hA hB hcs
  linarith

theorem spherical_cs (a b c : Coordinate) :
    dotC a b * dotC b c -
      Real.sqrt (1 - dotC a b ^ 2) * Real.sqrt (1 - dotC b c ^ 2) ≤ dotC a c := by
  rw [dotC_eq_components a b, dotC_eq_components b c, dotC_eq_components a c]
  exact cs_key (ux a) (uy a) (uz a) (ux b) (uy b) (uz b) (ux c) (uy c) (uz c)
    (unit_vector a) (unit_vector b) (unit_vector c)

theorem arccos_antitone {x y : ℝ} (h : x ≤ y) : Real.arccos y ≤ Real.arccos x := by
  rw [Real.arccos_eq_pi_div_two_sub_arcsin, Real.arccos_eq_pi_div_two_sub_arcsin]
  have := Real.monotone_arcsin h
  linarith

theorem arccos_triangle {Dab Dbc Dac : ℝ}
    (hab1 : -1 ≤ Dab) (hab2 : Dab ≤ 1) (hbc1 : -1 ≤ Dbc) (hbc2 : Dbc ≤ 1)
    (hkey : Dab * Dbc - Real.sqrt (1 - Dab ^ 2) * Real.sqrt (1 - Dbc ^ 2) ≤ Dac) :
    Real.arccos Dac ≤ Real.arccos Dab + Real.arccos Dbc := by
  set α := Real.arccos Dab with hα
  set β := Real.arccos Dbc with hβ
  by_cases hπ : π ≤ α + β
  · exact le_trans (Real.arccos_le_pi _) hπ
  push_neg at hπ
  have hα0 : 0 ≤ α := Real.arccos_nonneg _
  have hβ0 : 0 ≤ β := Real.arccos_nonneg _
  have hcosadd : Real.cos (α + β) = Dab * Dbc -
      Real.sqrt (1 - Dab ^ 2) * Real.sqrt (1 - Dbc ^ 2) := by
    rw [Real.cos_add, hα, hβ, Real.cos_arccos hab1 hab2, Real.cos_arccos hbc1 hbc2,
      Real.sin_arccos, Real.sin_arccos]
  have hle : Real.cos (α + β) ≤ Dac := by rw [hcosadd]; exact hkey
  have harc : Real.arccos (Real.cos (α + β)) = α + β :=
    Real.arccos_cos (by linarith) (by linarith)
  calc Real.arccos Dac ≤ Real.arccos (Real.cos (α + β)) := arccos_antitone hle
    _ = α + β := harc

theorem distance_triangle (a b c : Coordinate) :
    distance a c ≤ distance a b + distance b c := by
  rw [distance_eq_arccos, distance_eq_arccos, distance_eq_arccos]
  have h := arccos_triangle (neg_one_le_dotC a b) (dotC_le_one a b)
    (neg_one_le_dotC b c) (dotC_le_one b c) (spherical_cs a b c)
  nlinarith [earthRadiusNm_pos, h]

theorem distance_self (a : Coordinate) : distance a a = 0 := by
  unfold distance toRadians
  simp [sub_self]

theorem distance_symm (a b : Coordinate) : distance a b = distance b a := by
  rw [distance_eq_arccos, distance_eq_arccos]
  have : dotC a b = dotC b a := by
    unfold dotC
    rw [show toRadians b.longitude - toRadians a.longitude =
      -(toRadians a.longitude - toRadians b.longitude) by ring, Real.cos_neg]
    ring
  rw [this]

theorem distance_nonneg (a b : Coordinate) : 0 ≤ distance a b := by
  rw [distance_eq_hav]
  have h1 : 0 ≤ Real.arcsin (Real.sqrt (hav a b)) :=
    Real.arcsin_nonneg.2 (Real.sqrt_nonneg _)
  nlinarith [earthRadiusNm_pos]

theorem distance_le_pi_radius (a b : Coordinate) :
    distance a b ≤ π * earthRadiusNm := by
  rw [distance_eq_hav]
  have h1 : Real.arcsin (Real.sqrt (hav a b)) ≤ π / 2 :=
    Real.arcsin_le_pi_div_two _
  nlinarith [earthRadiusNm_pos]

theorem distance_lt_circumference (a b : Coordinate) :
    distance a b < earthCircumferenceNm := by
  have h1 := distance_le_pi_radius a b
  unfold earthCircumferenceNm
  nlinarith [earthRadiusNm_pos, Real.pi_pos]

theorem distance_coord_eq (a b a' b' : Coordinate)
    (h1 : a.latitude = a'.latitude) (h2 : a.longitude = a'.longitude)
    (h3 : b.latitude = b'.latitude) (h4 : b.longitude = b'.longitude) :
    distance a b = distance a' b' := by
  unfold distance toRadians
  rw [h1, h2, h3, h4]

end GeoMath

/-- Modelled from the spec: a loaded snapshot of the SpatialIndex, the
in-memory corpus of airports and waypoints bulk-loaded from the store (the
index implementation is missing from the sources; the partition structure is
an implementation detail, the contract being the exact distance filter). -/
structure SpatialIndex where
  airports : List Airport
  waypoints : List Waypoint

/-- Modelled from the spec: the configured ceilings for cruise altitude and
cruise speed used by checks (e) and (f) of the RouteValidator. -/
structure AeroConfig where
  max_altitude : Int
  max_speed : Int

namespace SpatialIndex

/-- Look up an airport by its ICAO key (FlightPlan keys are airport ICAO
codes per the header comments). -/
def findAirport (idx : SpatialIndex) (key : String) : Option Airport :=
  idx.airports.find? (fun a => a.icao = key)

/-- Look up a waypoint by its identifier. -/
def findWaypoint (idx : SpatialIndex) (key : String) : Option Waypoint :=
  idx.waypoints.find? (fun w => w.id = key)

/-- Resolve a route key to a coordinate: a known waypoint or airport. -/
def resolve (idx : SpatialIndex) (key : String) : Option Coordinate :=
  match idx.findWaypoint key with
  | some w => some w.coord
  | none => (idx.findAirport key).map Airport.coord

/-- Whether a key resolves to a known waypoint or airport. -/
def keyResolves (idx : SpatialIndex) (key : String) : Bool :=
  (idx.findWaypoint key).isSome || (idx.findAirport key).isSome

open Classical in
/-- Modelled from the spec: the within-radius query over the loaded airport
corpus.  Candidates are filtered by exact GeoMath.distance against the
radius (closed interval); a non-positive radius returns the empty set. -/
noncomputable def airportsWithin (idx : SpatialIndex) (center : Coordinate)
    (radius_nm : ℝ) : List Airport :=
  if radius_nm ≤ 0 then []
  else idx.airports.filter (fun a => decide (GeoMath.distance center a.coord ≤ radius_nm))

open Classical in
/-- Modelled from the spec: the within-radius query over the loaded
waypoint corpus. -/
noncomputable def waypointsWithin (idx : SpatialIndex) (center : Coordinate)
    (radius_nm : ℝ) : List Waypoint :=
  if radius_nm ≤ 0 then []
  else idx.waypoints.filter (fun w => decide (GeoMath.distance center w.coord ≤ radius_nm))

end SpatialIndex

/-- Error taxonomy of the spec (section 7). -/
inductive ErrorKind
  | invalidInput
  | notFound
  | notInitialized
  | internal
deriving DecidableEq

/-- Structured errors returned across the modelled boundary. -/
inductive AeroError
  | notInitialized
  | invalidInput
  | unresolvedWaypoint (key : String)
deriving DecidableEq

/-- Classification of each structured error in the taxonomy; the spec makes
UnresolvedWaypoint an Internal (not NotFound) condition. -/
def AeroError.kind : AeroError → ErrorKind
  | .notInitialized => .notInitialized
  | .invalidInput => .invalidInput
  | .unresolvedWaypoint _ => .internal

/-- Modelled from the spec: aerobase_find_airports_within, whose
implementation is missing from the sources.  The service state is an
optional loaded index snapshot (none before a successful bulk load, which
fails with NotInitialized); with a loaded snapshot the query returns the
within-radius set, an empty sequence (not an error) when nothing matches. -/
noncomputable def aerobase_find_airports_within (st : Option SpatialIndex)
    (center : Coordinate) (radius_nm : ℝ) : Except AeroError (List Airport) :=
  match st with
  | none => .error .notInitialized
  | some idx => .ok (idx.airportsWithin center radius_nm)

/-- Modelled from the spec: aerobase_find_waypoints_within, the waypoint
counterpart of the airport proximity query. -/
noncomputable def aerobase_find_waypoints_within (st : Option SpatialIndex)
    (center : Coordinate) (radius_nm : ℝ) : Except AeroError (List Waypoint) :=
  match st with
  | none => .error .notInitialized
  | some idx => .ok (idx.waypointsWithin center radius_nm)

/-- Specific validation failure reasons (the spec recommends preserving the
first failing check for diagnosability). -/
inductive ValidationError
  | unknownDeparture
  | unknownDestination
  | sameDepartureDestination
  | badAlternate
  | unknownRouteKey (key : String)
  | badAltitude
  | badSpeed
deriving DecidableEq

/-- Check (c): the alternate, if present, resolves to a distinct airport. -/
def alternateOk (idx : SpatialIndex) (plan : FlightPlan) : Bool :=
  match plan.alternate with
  | none => true
  | some alt => (idx.findAirport alt).isSome && decide (alt ≠ plan.destination)

/-- Modelled from the spec: aerobase_validate_flight_plan, whose
implementation is missing from the sources.  The RouteValidator applies the
checks (a) to (f) of the spec in order, short-circuiting on the first
failure, as a pure function of the plan and the current index snapshot. -/
def aerobase_validate_flight_plan (cfg : AeroConfig) (idx : SpatialIndex)
    (plan : FlightPlan) : Except ValidationError Unit :=
  if (idx.findAirport plan.departure).isNone then .error .unknownDeparture
  else if (idx.findAirport plan.destination).isNone then .error .unknownDestination
  else if plan.departure = plan.destination then .error .sameDepartureDestination
  else if !(alternateOk idx plan) then .error .badAlternate
  else match plan.route.find? (fun k => !(idx.keyResolves k)) with
    | some k => .error (.unknownRouteKey k)
    | none =>
      if plan.cruise_altitude ≤ 0 ∨ cfg.max_altitude ≤ plan.cruise_altitude then
        .error .badAltitude
      else if plan.cruise_speed ≤ 0 ∨ cfg.max_speed ≤ plan.cruise_speed then
        .error .badSpeed
      else .ok ()

/-- Ordered leg endpoints of a plan: departure, the route waypoints in
order, destination. -/
def routePath (plan : FlightPlan) : List String :=
  plan.departure :: (plan.route ++ [plan.destination])

/-- Resolve every key of a path to its coordinate, reporting the first key
that is absent from the index. -/
def resolvePath (idx : SpatialIndex) : List String → Except String (List Coordinate)
  | [] => .ok []
  | k :: ks =>
    match idx.resolve k with
    | none => .error k
    | some c => (resolvePath idx ks).map (fun cs => c :: cs)

/-- Sum of the great-circle distances of the consecutive legs of a
coordinate sequence. -/
noncomputable def legSum : List Coordinate → ℝ
  | [] => 0
  | [_] => 0
  | a :: b :: rest => GeoMath.distance a b + legSum (b :: rest)

/-- Modelled from the spec: the RouteEvaluator.  It resolves the ordered
leg sequence (failing with UnresolvedWaypoint when a leg endpoint is absent
at evaluation time), accumulates GeoMath.distance over consecutive legs,
and derives estimated_time by the ceiling rounding policy; the division by
cruise_speed is guarded by an InvalidInput failure on a non-positive
speed. -/
noncomputable def RouteEvaluator.evaluate (idx : SpatialIndex)
    (plan : FlightPlan) : Except AeroError FlightRoute :=
  match resolvePath idx (routePath plan) with
  | .error k => .error (.unresolvedWaypoint k)
  | .ok coords =>
    if plan.cruise_speed ≤ 0 then .error .invalidInput
    else
      let td := legSum coords
      .ok ⟨plan, td, ⌈td / (plan.cruise_speed : ℝ) * 60⌉⟩

/-- Modelled from the spec: aerobase_calculate_route, whose implementation
is missing from the sources; it evaluates the plan against the loaded
snapshot, failing with NotInitialized before a successful bulk load. -/
noncomputable def aerobase_calculate_route (st : Option SpatialIndex)
    (plan : FlightPlan) : Except AeroError FlightRoute :=
  match st with
  | none => .error .notInitialized
  | some idx => RouteEvaluator.evaluate idx plan

namespace SpatialIndex

theorem airportsWithin_nonpos (idx : SpatialIndex) (center : Coordinate)
    {r : ℝ} (hr : r ≤ 0) : idx.airportsWithin center r = [] := by
  unfold airportsWithin
  rw [if_pos hr]

theorem waypointsWithin_nonpos (idx : SpatialIndex) (center : Coordinate)
    {r : ℝ} (hr : r ≤ 0) : idx.waypointsWithin center r = [] := by
  unfold waypointsWithin
  rw [if_pos hr]

theorem mem_airportsWithin (idx : SpatialIndex) (center : Coordinate)
    {r : ℝ} (hr : 0 < r) (a : Airport) :
    a ∈ idx.airportsWithin center r ↔
      a ∈ idx.airports ∧ GeoMath.distance center a.coord ≤ r := by
  unfold airportsWithin
  rw [if_neg (not_le.2 hr)]
  simp [List.mem_filter]

theorem mem_waypointsWithin (idx : SpatialIndex) (center : Coordinate)
    {r : ℝ} (hr : 0 < r) (w : Waypoint) :
    w ∈ idx.waypointsWithin center r ↔
      w ∈ idx.waypoints ∧ GeoMath.distance center w.coord ≤ r := by
  unfold waypointsWithin
  rw [if_neg (not_le.2 hr)]
  simp [List.mem_filter]

theorem airportsWithin_eq_nil (idx : SpatialIndex) (center : Coordinate)
    {r : ℝ} (h : ∀ a ∈ idx.airports, ¬ GeoMath.distance center a.coord ≤ r) :
    idx.airportsWithin center r = [] := by
  unfold airportsWithin
  rcases le_or_lt r 0 with hr | hr
  · rw [if_pos hr]
  · rw [if_neg (not_le.2 hr)]
    exact List.filter_eq_nil_iff.2 fun a ha => by simpa using h a ha

theorem waypointsWithin_eq_nil (idx : SpatialIndex) (center : Coordinate)
    {r : ℝ} (h : ∀ w ∈ idx.waypoints, ¬ GeoMath.distance center w.coord ≤ r) :
    idx.waypointsWithin center r = [] := by
  unfold waypointsWithin
  rcases le_or_lt r 0 with hr | hr
  · rw [if_pos hr]
  · rw [if_neg (not_le.2 hr)]
    exact List.filter_eq_nil_iff.2 fun w hw => by simpa using h w hw

end SpatialIndex

/-- Airport used by the concrete query scenarios: it sits exactly at the
origin coordinate. -/
def apOrigin : Airport := ⟨"AP0", "AP0", none, "Origin Field", 0, 0, 13, none⟩

/-- Index snapshot holding just the origin airport. -/
def idxOrigin : SpatialIndex := ⟨[apOrigin], []⟩

/-- Center coordinate of the concrete query scenarios. -/
def cOrigin : Coordinate := ⟨0, 0⟩

/-- C1 counterexample: with the origin airport loaded and the query centered
on it, the point has distance 0 ≤ 0 from the center, yet within(center, 0)
excludes it, because a non-positive radius returns the empty set; so the
membership equivalence of C1 fails at radius R = 0. -/
theorem C1_counterexample :
    GeoMath.distance cOrigin apOrigin.coord ≤ 0 ∧
      apOrigin ∈ idxOrigin.airports ∧
      apOrigin ∉ idxOrigin.airportsWithin cOrigin 0 := by
  refine ⟨?_, ?_, ?_⟩
  · have h : apOrigin.coord = cOrigin := rfl
    rw [h, GeoMath.distance_self]
  · simp [idxOrigin]
  · rw [SpatialIndex.airportsWithin_nonpos idxOrigin cOrigin le_rfl]
    simp

/-- C1 (amended): for every loaded index snapshot, center and radius R that
is not zero, a point of the corpus is in within(center, R) if and only if
its exact haversine distance from the center is at most R (closed
interval); at R = 0 the result is empty even for a point at distance 0.
Consequently within(center, R) is a superset of within(center, R/2) for
every radius R, with no restriction. -/
theorem C1_within_iff_distance (idx : SpatialIndex) (center : Coordinate) (R : ℝ) :
    (∀ a : Airport, R ≠ 0 →
      (a ∈ idx.airportsWithin center R ↔
        a ∈ idx.airports ∧ GeoMath.distance center a.coord ≤ R))
    ∧ (∀ w : Waypoint, R ≠ 0 →
      (w ∈ idx.waypointsWithin center R ↔
        w ∈ idx.waypoints ∧ GeoMath.distance center w.coord ≤ R))
    ∧ (∀ a : Airport, a ∈ idx.airportsWithin center (R / 2) →
        a ∈ idx.airportsWithin center R)
    ∧ (∀ w : Waypoint, w ∈ idx.waypointsWithin center (R / 2) →
        w ∈ idx.waypointsWithin center R) := by
  refine ⟨?_, ?_, ?_, ?_⟩
  · intro a hR
    rcases lt_or_gt_of_ne hR with h | h
    · rw [idx.airportsWithin_nonpos center h.le]
      simp only [List.not_mem_nil, false_iff]
      rintro ⟨-, hd⟩
      exact absurd (lt_of_le_of_lt hd h) (not_lt.2 (GeoMath.distance_nonneg _ _))
    · exact idx.mem_airportsWithin center h a
  · intro w hR
    rcases lt_or_gt_of_ne hR with h | h
    · rw [idx.waypointsWithin_nonpos center h.le]
      simp only [List.not_mem_nil, false_iff]
      rintro ⟨-, hd⟩
      exact absurd (lt_of_le_of_lt hd h) (not_lt.2 (GeoMath.distance_nonneg _ _))
    · exact idx.mem_waypointsWithin center h w
  · intro a ha
    rcases le_or_lt R 0 with h | h
    · rw [idx.airportsWithin_nonpos center (by linarith : R / 2 ≤ 0)] at ha
      simp at ha
    · have h2 : (0 : ℝ) < R / 2 := by linarith
      rcases (idx.mem_airportsWithin center h2 a).1 ha with ⟨hm, hd⟩
      exact (idx.mem_airportsWithin center h a).2 ⟨hm, by linarith⟩
  · intro w hw
    rcases le_or_lt R 0 with h | h
    · rw [idx.waypointsWithin_nonpos center (by linarith : R / 2 ≤ 0)] at hw
      simp at hw
    · have h2 : (0 : ℝ) < R / 2 := by linarith
      rcases (idx.mem_waypointsWithin center h2 w).1 hw with ⟨hm, hd⟩
      exact (idx.mem_waypointsWithin center h w).2 ⟨hm, by linarith⟩

/-- Witness for C1: the equivalence evaluated on the origin snapshot at the
concrete radius 1. -/
theorem C1_witness :
    apOrigin ∈ idxOrigin.airportsWithin cOrigin 1 ↔
      apOrigin ∈ idxOrigin.airports ∧
        GeoMath.distance cOrigin apOrigin.coord ≤ 1 :=
  (C1_within_iff_distance idxOrigin cOrigin 1).1 apOrigin (by norm_num)

/-- C5: radius edge cases of the proximity query.  A non-positive radius
returns the empty set; a radius beyond the Earth circumference returns the
entire corpus; a point lying exactly at the center (distance 0) is included
for every positive radius (closed interval); and every point returned by
within(center, 0) lies at distance 0 from the center. -/
theorem C5_radius_edge_cases (idx : SpatialIndex) (center : Coordinate) (r : ℝ) :
    (r ≤ 0 → idx.airportsWithin center r = [] ∧ idx.waypointsWithin center r = [])
    ∧ (GeoMath.earthCircumferenceNm < r →
        idx.airportsWithin center r = idx.airports ∧
          idx.waypointsWithin center r = idx.waypoints)
    ∧ (∀ a ∈ idx.airports, 0 < r → GeoMath.distance center a.coord = 0 →
        a ∈ idx.airportsWithin center r)
    ∧ (∀ w ∈ idx.waypoints, 0 < r → GeoMath.distance center w.coord = 0 →
        w ∈ idx.waypointsWithin center r)
    ∧ (∀ a ∈ idx.airportsWithin center 0, GeoMath.distance center a.coord = 0)
    ∧ (∀ w ∈ idx.waypointsWithin center 0, GeoMath.distance center w.coord = 0) := by
  have hcirc : (0 : ℝ) < GeoMath.earthCircumferenceNm := by
    unfold GeoMath.earthCircumferenceNm
    exact mul_pos (mul_pos two_pos Real.pi_pos) GeoMath.earthRadiusNm_pos
  refine ⟨fun hr => ⟨idx.airportsWithin_nonpos center hr,
    idx.waypointsWithin_nonpos center hr⟩, fun hr => ⟨?_, ?_⟩, ?_, ?_, ?_, ?_⟩
  · unfold SpatialIndex.airportsWithin
    rw [if_neg (not_le.2 (lt_trans hcirc hr))]
    refine List.filter_eq_self.2 fun a _ => ?_
    simp only [decide_eq_true_eq]
    exact le_of_lt (lt_trans (GeoMath.distance_lt_circumference center a.coord) hr)
  · unfold SpatialIndex.waypointsWithin
    rw [if_neg (not_le.2 (lt_trans hcirc hr))]
    refine List.filter_eq_self.2 fun w _ => ?_
    simp only [decide_eq_true_eq]
    exact le_of_lt (lt_trans (GeoMath.distance_lt_circumference center w.coord) hr)
  · intro a ha hr hd
    exact (idx.mem_airportsWithin center hr a).2 ⟨ha, by rw [hd]; exact hr.le⟩
  · intro w hw hr hd
    exact (idx.mem_waypointsWithin center hr w).2 ⟨hw, by rw [hd]; exact hr.le⟩
  · intro a ha
    rw [idx.airportsWithin_nonpos center le_rfl] at ha
    simp at ha
  · intro w hw
    rw [idx.waypointsWithin_nonpos center le_rfl] at hw
    simp at hw

/-- Witness for C5: on the origin snapshot, the origin airport, lying
exactly at the center, is returned at the concrete radius 1. -/
theorem C5_witness : apOrigin ∈ idxOrigin.airportsWithin cOrigin 1 :=
  (C5_radius_edge_cases idxOrigin cOrigin 1).2.2.1 apOrigin (by simp [idxOrigin])
    one_pos (by rw [show apOrigin.coord = cOrigin from rfl, GeoMath.distance_self])

/-- C8: the proximity search fails exactly when the index is not yet
initialized (no successful bulk load, the state being none); with a loaded
snapshot it always succeeds, and when no point matches the radius it
returns the empty sequence, never an error. -/
theorem C8_find_within_contract (st : Option SpatialIndex) (center : Coordinate) (r : ℝ) :
    ((∃ e, aerobase_find_airports_within st center r = .error e) ↔ st = none)
    ∧ ((∃ e, aerobase_find_waypoints_within st center r = .error e) ↔ st = none)
    ∧ (aerobase_find_airports_within none center r = .error .notInitialized)
    ∧ (∀ idx, st = some idx →
        ((∀ a ∈ idx.airports, ¬ GeoMath.distance center a.coord ≤ r) →
          aerobase_find_airports_within st center r = .ok [])
        ∧ ((∀ w ∈ idx.waypoints, ¬ GeoMath.distance center w.coord ≤ r) →
          aerobase_find_waypoints_within st center r = .ok [])) := by
  refine ⟨?_, ?_, rfl, ?_⟩
  · cases st with
    | none => simp [aerobase_find_airports_within]
    | some idx => simp [aerobase_find_airports_within]
  · cases st with
    | none => simp [aerobase_find_waypoints_within]
    | some idx => simp [aerobase_find_waypoints_within]
  · rintro idx rfl
    constructor
    · intro hnone
      have h := idx.airportsWithin_eq_nil center hnone
      simp [aerobase_find_airports_within, h]
    · intro hnone
      have h := idx.waypointsWithin_eq_nil center hnone
      simp [aerobase_find_waypoints_within, h]

/-- Witness for C8: on the origin snapshot nothing matches a negative
radius, and the query returns the empty sequence as a success. -/
theorem C8_witness :
    aerobase_find_airports_within (some idxOrigin) cOrigin (-1) = .ok [] :=
  ((C8_find_within_contract (some idxOrigin) cOrigin (-1)).2.2.2 idxOrigin rfl).1
    (fun a _ h => absurd h (not_le.2 (by
      have := GeoMath.distance_nonneg cOrigin a.coord
      linarith)))

/-- Check (a) of the spec: departure and destination keys resolve to
airports (not waypoints). -/
def checkA (idx : SpatialIndex) (plan : FlightPlan) : Prop :=
  (idx.findAirport plan.departure).isSome = true ∧
    (idx.findAirport plan.destination).isSome = true

/-- Check (b) of the spec: departure differs from destination. -/
def checkB (plan : FlightPlan) : Prop :=
  plan.departure ≠ plan.destination

/-- Check (c) of the spec: the alternate, if present, resolves to a
distinct airport (distinct from the destination). -/
def checkC (idx : SpatialIndex) (plan : FlightPlan) : Prop :=
  ∀ alt ∈ plan.alternate,
    (idx.findAirport alt).isSome = true ∧ alt ≠ plan.destination

/-- Check (d) of the spec: every route waypoint key resolves to a known
waypoint or airport. -/
def checkD (idx : SpatialIndex) (plan : FlightPlan) : Prop :=
  ∀ k ∈ plan.route, idx.keyResolves k = true

/-- Check (e) of the spec: positive cruise altitude below the configured
ceiling. -/
def checkE (cfg : AeroConfig) (plan : FlightPlan) : Prop :=
  0 < plan.cruise_altitude ∧ plan.cruise_altitude < cfg.max_altitude

/-- Check (f) of the spec: positive cruise speed below the configured
ceiling. -/
def checkF (cfg : AeroConfig) (plan : FlightPlan) : Prop :=
  0 < plan.cruise_speed ∧ plan.cruise_speed < cfg.max_speed

theorem alternateOk_iff (idx : SpatialIndex) (plan : FlightPlan) :
    alternateOk idx plan = true ↔ checkC idx plan := by
  unfold alternateOk checkC
  cases plan.alternate with
  | none => simp
  | some alt => simp

theorem find?_unresolved_eq_none_iff (idx : SpatialIndex) (plan : FlightPlan) :
    plan.route.find? (fun k => !(idx.keyResolves k)) = none ↔ checkD idx plan := by
  rw [List.find?_eq_none]
  unfold checkD
  constructor
  · intro h k hk
    have := h k hk
    simpa using this
  · intro h k hk
    simpa using h k hk


theorem validate_err_dep (cfg : AeroConfig) (idx : SpatialIndex) (plan : FlightPlan)
    (h1 : (idx.findAirport plan.departure).isNone = true) :
    aerobase_validate_flight_plan cfg idx plan = .error .unknownDeparture := by
  unfold aerobase_validate_flight_plan
  rw [if_pos h1]

theorem validate_err_dest (cfg : AeroConfig) (idx : SpatialIndex) (plan : FlightPlan)
    (h1 : (idx.findAirport plan.departure).isNone = false)
    (h2 : (idx.findAirport plan.destination).isNone = true) :
    aerobase_validate_flight_plan cfg idx plan = .error .unknownDestination := by
  unfold aerobase_validate_flight_plan
  rw [if_neg (by simp [h1]), if_pos h2]

theorem validate_err_same (cfg : AeroConfig) (idx : SpatialIndex) (plan : FlightPlan)
    (h1 : (idx.findAirport plan.departure).isNone = false)
    (h2 : (idx.findAirport plan.destination).isNone = false)
    (h3 : plan.departure = plan.destination) :
    aerobase_validate_flight_plan cfg idx plan = .error .sameDepartureDestination := by
  unfold aerobase_validate_flight_plan
  rw [if_neg (by simp [h1]), if_neg (by simp [h2]), if_pos h3]

theorem validate_err_alt (cfg : AeroConfig) (idx : SpatialIndex) (plan : FlightPlan)
    (h1 : (idx.findAirport plan.departure).isNone = false)
    (h2 : (idx.findAirport plan.destination).isNone = false)
    (h3 : plan.departure ≠ plan.destination)
    (h4 : alternateOk idx plan = false) :
    aerobase_validate_flight_plan cfg idx plan = .error .badAlternate := by
  unfold aerobase_validate_flight_plan
  rw [if_neg (by simp [h1]), if_neg (by simp [h2]), if_neg h3, if_pos (by simp [h4])]

theorem validate_err_route (cfg : AeroConfig) (idx : SpatialIndex) (plan : FlightPlan)
    (k : String)
    (h1 : (idx.findAirport plan.departure).isNone = false)
    (h2 : (idx.findAirport plan.destination).isNone = false)
    (h3 : plan.departure ≠ plan.destination)
    (h4 : alternateOk idx plan = true)
    (hfind : plan.route.find? (fun k => !(idx.keyResolves k)) = some k) :
    aerobase_validate_flight_plan cfg idx plan = .error (.unknownRouteKey k) := by
  unfold aerobase_validate_flight_plan
  rw [if_neg (by simp [h1]), if_neg (by simp [h2]), if_neg h3,
    if_neg (by simp [h4]), hfind]

theorem validate_tail (cfg : AeroConfig) (idx : SpatialIndex) (plan : FlightPlan)
    (h1 : (idx.findAirport plan.departure).isNone = false)
    (h2 : (idx.findAirport plan.destination).isNone = false)
    (h3 : plan.departure ≠ plan.destination)
    (h4 : alternateOk idx plan = true)
    (hfind : plan.route.find? (fun k => !(idx.keyResolves k)) = none) :
    aerobase_validate_flight_plan cfg idx plan =
      (if plan.cruise_altitude ≤ 0 ∨ cfg.max_altitude ≤ plan.cruise_altitude then
        .error .badAltitude
      else if plan.cruise_speed ≤ 0 ∨ cfg.max_speed ≤ plan.cruise_speed then
        .error .badSpeed
      else .ok ()) := by
  unfold aerobase_validate_flight_plan
  rw [if_neg (by simp [h1]), if_neg (by simp [h2]), if_neg h3,
    if_neg (by simp [h4]), hfind]

theorem validate_ok_iff (cfg : AeroConfig) (idx : SpatialIndex) (plan : FlightPlan) :
    aerobase_validate_flight_plan cfg idx plan = .ok () ↔
      checkA idx plan ∧ checkB plan ∧ checkC idx plan ∧ checkD idx plan ∧
        checkE cfg plan ∧ checkF cfg plan := by
  cases hdep : (idx.findAirport plan.departure).isNone with
  | true =>
    rw [validate_err_dep cfg idx plan hdep]
    simp only [reduceCtorEq, false_iff]
    rintro ⟨⟨hA1, -⟩, -⟩
    rw [Option.isNone_iff_eq_none] at hdep
    rw [hdep] at hA1
    simp at hA1
  | false =>
  cases hdest : (idx.findAirport plan.destination).isNone with
  | true =>
    rw [validate_err_dest cfg idx plan hdep hdest]
    simp only [reduceCtorEq, false_iff]
    rintro ⟨⟨-, hA2⟩, -⟩
    rw [Option.isNone_iff_eq_none] at hdest
    rw [hdest] at hA2
    simp at hA2
  | false =>
  by_cases hsame : plan.departure = plan.destination
  · rw [validate_err_same cfg idx plan hdep hdest hsame]
    simp only [reduceCtorEq, false_iff]
    rintro ⟨-, hB, -⟩
    exact hB hsame
  cases halt : alternateOk idx plan with
  | false =>
    rw [validate_err_alt cfg idx plan hdep hdest hsame halt]
    simp only [reduceCtorEq, false_iff]
    rintro ⟨-, -, hC, -⟩
    rw [← alternateOk_iff idx plan] at hC
    rw [halt] at hC
    simp at hC
  | true =>
  cases hfind : plan.route.find? (fun k => !(idx.keyResolves k)) with
  | some k =>
    rw [validate_err_route cfg idx plan k hdep hdest hsame halt hfind]
    simp only [reduceCtorEq, false_iff]
    rintro ⟨-, -, -, hD, -⟩
    rw [← find?_unresolved_eq_none_iff idx plan] at hD
    rw [hfind] at hD
    simp at hD
  | none =>
    rw [validate_tail cfg idx plan hdep hdest hsame halt hfind]
    have hA : checkA idx plan := by
      constructor
      · rw [← Option.ne_none_iff_isSome]
        intro h
        rw [h] at hdep
        simp at hdep
      · rw [← Option.ne_none_iff_isSome]
        intro h
        rw [h] at hdest
        simp at hdest
    have hC : checkC idx plan := (alternateOk_iff idx plan).1 halt
    have hD : checkD idx plan := (find?_unresolved_eq_none_iff idx plan).1 hfind
    split_ifs with h5 h6
    · simp only [reduceCtorEq, false_iff]
      rintro ⟨-, -, -, -, hE, -⟩
      unfold checkE at hE
      omega
    · simp only [reduceCtorEq, false_iff]
      rintro ⟨-, -, -, -, -, hF⟩
      unfold checkF at hF
      omega
    · simp only [true_iff]
      push_neg at h5 h6
      exact ⟨hA, hsame, hC, hD, ⟨h5.1, h5.2⟩, ⟨h6.1, h6.2⟩⟩

theorem isNone_eq_false_of_isSome {α : Type} {o : Option α}
    (h : o.isSome = true) : o.isNone = false := by
  cases o <;> simp_all

/-- C4: validation succeeds precisely when checks (a) to (f) all hold, the
checks are applied in that order short-circuiting on the first failure (the
reported reason is the one of the first failing check), and in particular a
plan with departure equal to destination, or referencing a route key absent
from the index, is rejected. -/
theorem C4_validation (cfg : AeroConfig) (idx : SpatialIndex) (plan : FlightPlan) :
    (aerobase_validate_flight_plan cfg idx plan = .ok () ↔
      checkA idx plan ∧ checkB plan ∧ checkC idx plan ∧ checkD idx plan ∧
        checkE cfg plan ∧ checkF cfg plan)
    ∧ (idx.findAirport plan.departure = none →
        aerobase_validate_flight_plan cfg idx plan = .error .unknownDeparture)
    ∧ ((idx.findAirport plan.departure).isSome = true →
        idx.findAirport plan.destination = none →
        aerobase_validate_flight_plan cfg idx plan = .error .unknownDestination)
    ∧ (checkA idx plan → plan.departure = plan.destination →
        aerobase_validate_flight_plan cfg idx plan = .error .sameDepartureDestination)
    ∧ (checkA idx plan → checkB plan → ¬ checkC idx plan →
        aerobase_validate_flight_plan cfg idx plan = .error .badAlternate)
    ∧ (checkA idx plan → checkB plan → checkC idx plan → ¬ checkD idx plan →
        ∃ k ∈ plan.route, idx.keyResolves k = false ∧
          aerobase_validate_flight_plan cfg idx plan = .error (.unknownRouteKey k))
    ∧ (checkA idx plan → checkB plan → checkC idx plan → checkD idx plan →
        ¬ checkE cfg plan →
        aerobase_validate_flight_plan cfg idx plan = .error .badAltitude)
    ∧ (checkA idx plan → checkB plan → checkC idx plan → checkD idx plan →
        checkE cfg plan → ¬ checkF cfg plan →
        aerobase_validate_flight_plan cfg idx plan = .error .badSpeed)
    ∧ (plan.departure = plan.destination →
        aerobase_validate_flight_plan cfg idx plan ≠ .ok ())
    ∧ ((∃ k ∈ plan.route, idx.keyResolves k = false) →
        aerobase_validate_flight_plan cfg idx plan ≠ .ok ()) := by
  refine ⟨validate_ok_iff cfg idx plan, ?_, ?_, ?_, ?_, ?_, ?_, ?_, ?_, ?_⟩
  · intro h
    exact validate_err_dep cfg idx plan (by rw [h]; rfl)
  · intro h1 h2
    exact validate_err_dest cfg idx plan (isNone_eq_false_of_isSome h1) (by rw [h2]; rfl)
  · rintro ⟨hA1, hA2⟩ hsame
    exact validate_err_same cfg idx plan (isNone_eq_false_of_isSome hA1)
      (isNone_eq_false_of_isSome hA2) hsame
  · rintro ⟨hA1, hA2⟩ hB hC
    have halt : alternateOk idx plan = false := by
      cases h : alternateOk idx plan with
      | false => rfl
      | true => exact absurd ((alternateOk_iff idx plan).1 h) hC
    exact validate_err_alt cfg idx plan (isNone_eq_false_of_isSome hA1)
      (isNone_eq_false_of_isSome hA2) hB halt
  · rintro ⟨hA1, hA2⟩ hB hC hD
    have hne : plan.route.find? (fun k => !(idx.keyResolves k)) ≠ none := by
      intro h
      exact hD ((find?_unresolved_eq_none_iff idx plan).1 h)
    rcases Option.ne_none_iff_exists'.1 hne with ⟨k, hk⟩
    refine ⟨k, List.mem_of_find?_eq_some hk, ?_, ?_⟩
    · have := List.find?_some hk
      simpa using this
    · exact validate_err_route cfg idx plan k (isNone_eq_false_of_isSome hA1)
        (isNone_eq_false_of_isSome hA2) hB ((alternateOk_iff idx plan).2 hC) hk
  · rintro ⟨hA1, hA2⟩ hB hC hD hE
    rw [validate_tail cfg idx plan (isNone_eq_false_of_isSome hA1)
      (isNone_eq_false_of_isSome hA2) hB ((alternateOk_iff idx plan).2 hC)
      ((find?_unresolved_eq_none_iff idx plan).2 hD)]
    rw [if_pos (by unfold checkE at hE; omega)]
  · rintro ⟨hA1, hA2⟩ hB hC hD hE hF
    rw [validate_tail cfg idx plan (isNone_eq_false_of_isSome hA1)
      (isNone_eq_false_of_isSome hA2) hB ((alternateOk_iff idx plan).2 hC)
      ((find?_unresolved_eq_none_iff idx plan).2 hD)]
    rw [if_neg (by unfold checkE at hE; omega), if_pos (by unfold checkF at hF; omega)]
  · intro hsame hok
    exact ((validate_ok_iff cfg idx plan).1 hok).2.1 hsame
  · rintro ⟨k, hk, hkr⟩ hok
    have := ((validate_ok_iff cfg idx plan).1 hok).2.2.2.1 k hk
    rw [hkr] at this
    simp at this

/-- KJFK airport with the coordinates of the round-trip scenario of the
spec. -/
noncomputable def KJFK : Airport :=
  ⟨"KJFK", "KJFK", some "JFK", "John F Kennedy Intl", 40.6413, -73.7781, 13, some "USA"⟩

/-- KLAX airport with the coordinates of the round-trip scenario of the
spec. -/
noncomputable def KLAX : Airport :=
  ⟨"KLAX", "KLAX", some "LAX", "Los Angeles Intl", 33.9416, -118.4085, 125, some "USA"⟩

/-- Index snapshot holding the two airports of the round-trip scenario. -/
noncomputable def idxJfkLax : SpatialIndex := ⟨[KJFK, KLAX], []⟩

/-- Flight plan of the round-trip scenario: KJFK to KLAX, empty waypoint
list, cruise speed 500 knots. -/
def planJfkLax : FlightPlan := ⟨"KJFK", "KLAX", none, 35000, 500, []⟩

/-- Configured ceilings used by the concrete validation scenarios. -/
def cfgStd : AeroConfig := ⟨60000, 1000⟩

/-- Witness for C4: the round-trip plan passes validation on the concrete
snapshot; the six checks are discharged by evaluation. -/
theorem C4_witness :
    aerobase_validate_flight_plan cfgStd idxJfkLax planJfkLax = .ok () :=
  (C4_validation cfgStd idxJfkLax planJfkLax).1.mpr (by
    refine ⟨⟨?_, ?_⟩, ?_, ?_, ?_, ?_, ?_⟩ <;>
      simp [checkB, checkC, checkD, checkE, checkF, idxJfkLax, planJfkLax, cfgStd,
        SpatialIndex.findAirport, KJFK, KLAX])

theorem legSum_eq_zip : ∀ cs : List Coordinate,
    legSum cs = ((cs.zip cs.tail).map (fun p => GeoMath.distance p.1 p.2)).sum
  | [] => by simp [legSum]
  | [a] => by simp [legSum]
  | a :: b :: rest => by
    rw [legSum, legSum_eq_zip (b :: rest)]
    simp [List.zip_cons_cons]

theorem resolve_isSome_of_airport (idx : SpatialIndex) (k : String)
    (h : (idx.findAirport k).isSome = true) : (idx.resolve k).isSome = true := by
  unfold SpatialIndex.resolve
  cases hw : idx.findWaypoint k with
  | some w => rfl
  | none => simp [Option.isSome_map, h]

theorem resolve_isSome_of_keyResolves (idx : SpatialIndex) (k : String)
    (h : idx.keyResolves k = true) : (idx.resolve k).isSome = true := by
  unfold SpatialIndex.keyResolves at h
  unfold SpatialIndex.resolve
  cases hw : idx.findWaypoint k with
  | some w => rfl
  | none =>
    rw [hw] at h
    simp at h
    simp [Option.isSome_map, h]

theorem resolvePath_isOk (idx : SpatialIndex) : ∀ ks : List String,
    (∀ k ∈ ks, (idx.resolve k).isSome = true) →
    ∃ cs, resolvePath idx ks = .ok cs
  | [], _ => ⟨[], rfl⟩
  | k :: ks, h => by
    rcases Option.isSome_iff_exists.1 (h k (List.mem_cons_self k ks)) with ⟨c, hc⟩
    rcases resolvePath_isOk idx ks
      (fun k' hk' => h k' (List.mem_cons_of_mem k hk')) with ⟨cs, hcs⟩
    refine ⟨c :: cs, ?_⟩
    rw [resolvePath, hc, hcs]
    rfl

theorem routePath_resolves (cfg : AeroConfig) (idx : SpatialIndex) (plan : FlightPlan)
    (hval : aerobase_validate_flight_plan cfg idx plan = .ok ()) :
    ∀ k ∈ routePath plan, (idx.resolve k).isSome = true := by
  rcases (validate_ok_iff cfg idx plan).1 hval with ⟨⟨hA1, hA2⟩, -, -, hD, -, -⟩
  intro k hk
  rcases List.mem_cons.1 hk with rfl | hk
  · exact resolve_isSome_of_airport idx _ hA1
  rcases List.mem_append.1 hk with hk | hk
  · exact resolve_isSome_of_keyResolves idx k (hD k hk)
  · rcases List.mem_singleton.1 hk with rfl
    exact resolve_isSome_of_airport idx _ hA2

theorem evaluate_ok (idx : SpatialIndex) (plan : FlightPlan) (coords : List Coordinate)
    (hres : resolvePath idx (routePath plan) = .ok coords)
    (hspd : 0 < plan.cruise_speed) :
    RouteEvaluator.evaluate idx plan =
      .ok ⟨plan, legSum coords, ⌈legSum coords / (plan.cruise_speed : ℝ) * 60⌉⟩ := by
  unfold RouteEvaluator.evaluate
  rw [hres]
  simp only [if_neg (not_le.2 hspd)]

theorem speed_pos_of_valid (cfg : AeroConfig) (idx : SpatialIndex) (plan : FlightPlan)
    (hval : aerobase_validate_flight_plan cfg idx plan = .ok ()) :
    0 < plan.cruise_speed :=
  ((validate_ok_iff cfg idx plan).1 hval).2.2.2.2.2.1

/-- C2: for every flight plan that passed validation, route evaluation
succeeds and computes total_distance as the exact sum of the great-circle
distances of the consecutive legs of the resolved ordered sequence
departure, waypoints in order, destination; a plan with an empty waypoint
sequence is evaluated as the single departure-to-destination leg, never a
shortcut replacing the waypoint order. -/
theorem C2_total_distance_leg_sum (cfg : AeroConfig) (idx : SpatialIndex)
    (plan : FlightPlan)
    (hval : aerobase_validate_flight_plan cfg idx plan = .ok ()) :
    ∃ coords r, resolvePath idx (routePath plan) = .ok coords ∧
      aerobase_calculate_route (some idx) plan = .ok r ∧
      r.total_distance =
        ((coords.zip coords.tail).map (fun p => GeoMath.distance p.1 p.2)).sum ∧
      (plan.route = [] → ∀ cd ca, idx.resolve plan.departure = some cd →
        idx.resolve plan.destination = some ca →
        r.total_distance = GeoMath.distance cd ca) := by
  rcases resolvePath_isOk idx (routePath plan)
    (routePath_resolves cfg idx plan hval) with ⟨coords, hres⟩
  have hspd := speed_pos_of_valid cfg idx plan hval
  refine ⟨coords,
    ⟨plan, legSum coords, ⌈legSum coords / (plan.cruise_speed : ℝ) * 60⌉⟩,
    hres, ?_, ?_, ?_⟩
  · show aerobase_calculate_route (some idx) plan = _
    unfold aerobase_calculate_route
    exact evaluate_ok idx plan coords hres hspd
  · exact legSum_eq_zip coords
  · intro hempty cd ca hcd hca
    have hpath : routePath plan = [plan.departure, plan.destination] := by
      rw [routePath, hempty]
      rfl
    rw [hpath] at hres
    rw [resolvePath, hcd, resolvePath, hca] at hres
    simp only [resolvePath, Except.map] at hres
    have hc : coords = [cd, ca] := by
      cases hres
      rfl
    rw [hc]
    show legSum [cd, ca] = GeoMath.distance cd ca
    rw [legSum, legSum]
    ring

/-- Witness for C2: the round-trip plan evaluated over the two-airport
snapshot after its validation is discharged by evaluation. -/
theorem C2_witness :
    ∃ coords r, resolvePath idxJfkLax (routePath planJfkLax) = .ok coords ∧
      aerobase_calculate_route (some idxJfkLax) planJfkLax = .ok r ∧
      r.total_distance =
        ((coords.zip coords.tail).map (fun p => GeoMath.distance p.1 p.2)).sum ∧
      (planJfkLax.route = [] → ∀ cd ca,
        idxJfkLax.resolve planJfkLax.departure = some cd →
        idxJfkLax.resolve planJfkLax.destination = some ca →
        r.total_distance = GeoMath.distance cd ca) :=
  C2_total_distance_leg_sum cfgStd idxJfkLax planJfkLax (by
    rw [validate_tail cfgStd idxJfkLax planJfkLax rfl rfl
      (by decide) rfl rfl]
    rfl)

/-- C9: when a leg endpoint key fails to resolve at evaluation time, route
evaluation returns the structured UnresolvedWaypoint error, classified as
Internal rather than NotFound, and never returns a route. -/
theorem C9_unresolved_is_internal (idx : SpatialIndex) (plan : FlightPlan)
    (k : String) (hres : resolvePath idx (routePath plan) = .error k) :
    aerobase_calculate_route (some idx) plan = .error (.unresolvedWaypoint k) ∧
      (AeroError.unresolvedWaypoint k).kind = .internal ∧
      (AeroError.unresolvedWaypoint k).kind ≠ .notFound ∧
      ∀ r, aerobase_calculate_route (some idx) plan ≠ .ok r := by
  have hcalc : aerobase_calculate_route (some idx) plan =
      .error (.unresolvedWaypoint k) := by
    show RouteEvaluator.evaluate idx plan = _
    unfold RouteEvaluator.evaluate
    rw [hres]
  refine ⟨hcalc, rfl, by simp [AeroError.kind], ?_⟩
  intro r h
  rw [hcalc] at h
  cases h

/-- Plan referencing a key absent from the two-airport snapshot. -/
def planMissingKey : FlightPlan := ⟨"KJFK", "KLAX", none, 35000, 500, ["NOWHERE"]⟩

/-- Witness for C9: the plan with the key NOWHERE, absent from the
snapshot, is rejected with the UnresolvedWaypoint error. -/
theorem C9_witness :
    aerobase_calculate_route (some idxJfkLax) planMissingKey =
        .error (.unresolvedWaypoint "NOWHERE") ∧
      (AeroError.unresolvedWaypoint "NOWHERE").kind = .internal ∧
      (AeroError.unresolvedWaypoint "NOWHERE").kind ≠ .notFound ∧
      ∀ r, aerobase_calculate_route (some idxJfkLax) planMissingKey ≠ .ok r :=
  C9_unresolved_is_internal idxJfkLax planMissingKey "NOWHERE" rfl

/-- C10: aerobase_calculate_route is callable without a prior successful
validation; for every plan whose cruise_speed is non-positive it returns a
failure and never a route, so the estimated-time division is never reached
with a non-positive divisor. -/
theorem C10_nonpositive_speed_fails (st : Option SpatialIndex) (plan : FlightPlan)
    (hspd : plan.cruise_speed ≤ 0) :
    (∃ e, aerobase_calculate_route st plan = .error e) ∧
      ∀ r, aerobase_calculate_route st plan ≠ .ok r := by
  have h : ∃ e, aerobase_calculate_route st plan = .error e := by
    cases st with
    | none => exact ⟨.notInitialized, rfl⟩
    | some idx =>
      cases hres : resolvePath idx (routePath plan) with
      | error k =>
        refine ⟨.unresolvedWaypoint k, ?_⟩
        show RouteEvaluator.evaluate idx plan = _
        unfold RouteEvaluator.evaluate
        rw [hres]
      | ok coords =>
        refine ⟨.invalidInput, ?_⟩
        show RouteEvaluator.evaluate idx plan = _
        unfold RouteEvaluator.evaluate
        rw [hres]
        show (if plan.cruise_speed ≤ 0 then Except.error AeroError.invalidInput
          else let td := legSum coords;
            Except.ok (⟨plan, td, ⌈td / (plan.cruise_speed : ℝ) * 60⌉⟩ : FlightRoute)) =
          Except.error AeroError.invalidInput
        rw [if_pos hspd]
  rcases h with ⟨e, he⟩
  refine ⟨⟨e, he⟩, fun r hr => ?_⟩
  rw [he] at hr
  cases hr

/-- Plan with a zero cruise speed used by the C10 witness. -/
def planZeroSpeed : FlightPlan := ⟨"KJFK", "KLAX", none, 35000, 0, []⟩

/-- Witness for C10: the zero-speed plan fails on the loaded snapshot. -/
theorem C10_witness :
    (∃ e, aerobase_calculate_route (some idxJfkLax) planZeroSpeed = .error e) ∧
      ∀ r, aerobase_calculate_route (some idxJfkLax) planZeroSpeed ≠ .ok r :=
  C10_nonpositive_speed_fails (some idxJfkLax) planZeroSpeed (by norm_num [planZeroSpeed])

/-- C6: over valid coordinates the modelled great-circle distance vanishes
on equal points, is symmetric, and satisfies the triangle inequality (the
real-number model makes the floating-point tolerances exact). -/
theorem C6_distance_metric (a b c : Coordinate) (ha : ValidCoordinate a)
    (hb : ValidCoordinate b) (hc : ValidCoordinate c) :
    GeoMath.distance a a = 0 ∧
      GeoMath.distance a b = GeoMath.distance b a ∧
      GeoMath.distance a c ≤ GeoMath.distance a b + GeoMath.distance b c :=
  ⟨GeoMath.distance_self a, GeoMath.distance_symm a b, GeoMath.distance_triangle a b c⟩

/-- Witness for C6: the metric facts evaluated at concrete valid
coordinates. -/
theorem C6_witness :
    GeoMath.distance ⟨0, 0⟩ ⟨0, 0⟩ = 0 ∧
      GeoMath.distance ⟨0, 0⟩ ⟨45, 90⟩ = GeoMath.distance ⟨45, 90⟩ ⟨0, 0⟩ ∧
      GeoMath.distance ⟨0, 0⟩ ⟨-30, 120⟩ ≤
        GeoMath.distance ⟨0, 0⟩ ⟨45, 90⟩ + GeoMath.distance ⟨45, 90⟩ ⟨-30, 120⟩ :=
  C6_distance_metric ⟨0, 0⟩ ⟨45, 90⟩ ⟨-30, 120⟩
    (by constructor <;> norm_num) (by constructor <;> norm_num)
    (by constructor <;> norm_num)

/-- Waypoint located exactly over the KJFK airport. -/
noncomputable def wpOverJfk : Waypoint :=
  ⟨"WJFK", "Over JFK", 40.6413, -73.7781, "VOR", none⟩

/-- Snapshot holding the two airports and the waypoint over KJFK. -/
noncomputable def idxOverJfk : SpatialIndex := ⟨[KJFK, KLAX], [wpOverJfk]⟩

/-- Plan with exactly one intermediate waypoint, the one over KJFK. -/
def planOverJfk : FlightPlan := ⟨"KJFK", "KLAX", none, 35000, 500, ["WJFK"]⟩

theorem validate_planOverJfk :
    aerobase_validate_flight_plan cfgStd idxOverJfk planOverJfk = .ok () := by
  rw [validate_tail cfgStd idxOverJfk planOverJfk rfl rfl (by decide) rfl rfl]
  rfl

theorem calculate_planOverJfk :
    aerobase_calculate_route (some idxOverJfk) planOverJfk =
      .ok ⟨planOverJfk, legSum [KJFK.coord, KJFK.coord, KLAX.coord],
        ⌈legSum [KJFK.coord, KJFK.coord, KLAX.coord] / ((500 : Int) : ℝ) * 60⌉⟩ := by
  show RouteEvaluator.evaluate idxOverJfk planOverJfk = _
  unfold RouteEvaluator.evaluate
  rw [show resolvePath idxOverJfk (routePath planOverJfk) =
    .ok [KJFK.coord, KJFK.coord, KLAX.coord] from rfl]
  rfl

/-- C7 counterexample: the validated plan KJFK to KLAX through the waypoint
located exactly over KJFK has exactly one intermediate waypoint, yet its
evaluated total distance equals the direct departure-to-destination
distance, so it is not strictly greater. -/
theorem C7_counterexample :
    aerobase_validate_flight_plan cfgStd idxOverJfk planOverJfk = .ok () ∧
      planOverJfk.route.length = 1 ∧
      ∃ r, aerobase_calculate_route (some idxOverJfk) planOverJfk = .ok r ∧
        ¬ (r.total_distance > GeoMath.distance KJFK.coord KLAX.coord) := by
  refine ⟨validate_planOverJfk, rfl, _, calculate_planOverJfk, ?_⟩
  show ¬ (legSum [KJFK.coord, KJFK.coord, KLAX.coord] >
    GeoMath.distance KJFK.coord KLAX.coord)
  have h : legSum [KJFK.coord, KJFK.coord, KLAX.coord] =
      GeoMath.distance KJFK.coord KLAX.coord := by
    rw [legSum, legSum, legSum, GeoMath.distance_self]
    ring
  rw [h]
  exact lt_irrefl _

/-- C7 (amended): for every validated flight plan with exactly one
intermediate waypoint, the evaluated total distance is the sum of the two
legs through the waypoint and is at least the direct
departure-to-destination great-circle distance (triangle inequality); it is
not strictly greater in general, equality occurring when the waypoint lies
on the great-circle path, for example exactly over an endpoint. -/
theorem C7_one_waypoint_triangle (cfg : AeroConfig) (idx : SpatialIndex)
    (plan : FlightPlan) (w : String) (hroute : plan.route = [w])
    (hval : aerobase_validate_flight_plan cfg idx plan = .ok ()) :
    ∃ cd cw ca r, idx.resolve plan.departure = some cd ∧
      idx.resolve w = some cw ∧ idx.resolve plan.destination = some ca ∧
      aerobase_calculate_route (some idx) plan = .ok r ∧
      r.total_distance = GeoMath.distance cd cw + GeoMath.distance cw ca ∧
      GeoMath.distance cd ca ≤ r.total_distance := by
  have hres := routePath_resolves cfg idx plan hval
  have hpath : routePath plan = [plan.departure, w, plan.destination] := by
    rw [routePath, hroute]
    rfl
  rcases Option.isSome_iff_exists.1 (hres plan.departure (by
    rw [hpath]; simp)) with ⟨cd, hcd⟩
  rcases Option.isSome_iff_exists.1 (hres w (by rw [hpath]; simp)) with ⟨cw, hcw⟩
  rcases Option.isSome_iff_exists.1 (hres plan.destination (by
    rw [hpath]; simp)) with ⟨ca, hca⟩
  have hresolve : resolvePath idx (routePath plan) = .ok [cd, cw, ca] := by
    rw [hpath, resolvePath, hcd, resolvePath, hcw, resolvePath, hca]
    rfl
  have hspd := speed_pos_of_valid cfg idx plan hval
  refine ⟨cd, cw, ca, ⟨plan, legSum [cd, cw, ca],
    ⌈legSum [cd, cw, ca] / (plan.cruise_speed : ℝ) * 60⌉⟩, hcd, hcw, hca, ?_, ?_, ?_⟩
  · show aerobase_calculate_route (some idx) plan = _
    unfold aerobase_calculate_route
    exact evaluate_ok idx plan [cd, cw, ca] hresolve hspd
  · show legSum [cd, cw, ca] = _
    rw [legSum, legSum, legSum]
    ring
  · show GeoMath.distance cd ca ≤ legSum [cd, cw, ca]
    have h : legSum [cd, cw, ca] =
        GeoMath.distance cd cw + GeoMath.distance cw ca := by
      rw [legSum, legSum, legSum]
      ring
    rw [h]
    exact GeoMath.distance_triangle cd cw ca

/-- Witness for C7: the amended statement evaluated on the concrete
over-KJFK scenario, the route and validation hypotheses discharged by
evaluation. -/
theorem C7_witness :
    ∃ cd cw ca r, idxOverJfk.resolve planOverJfk.departure = some cd ∧
      idxOverJfk.resolve "WJFK" = some cw ∧
      idxOverJfk.resolve planOverJfk.destination = some ca ∧
      aerobase_calculate_route (some idxOverJfk) planOverJfk = .ok r ∧
      r.total_distance = GeoMath.distance cd cw + GeoMath.distance cw ca ∧
      GeoMath.distance cd ca ≤ r.total_distance :=
  C7_one_waypoint_triangle cfgStd idxOverJfk planOverJfk "WJFK" rfl
    (by rw [validate_tail cfgStd idxOverJfk planOverJfk rfl rfl (by decide) rfl rfl]; rfl)

theorem sin_taylor_bounds {x lo hi slo shi : ℝ} (h0 : 0 ≤ lo) (hlo : lo ≤ x)
    (hhi : x ≤ hi) (h1 : hi ≤ 1)
    (hsl : slo ≤ lo - hi ^ 3 / 6 - hi ^ 4 * (5 / 96))
    (hsh : hi - lo ^ 3 / 6 + hi ^ 4 * (5 / 96) ≤ shi) :
    slo ≤ Real.sin x ∧ Real.sin x ≤ shi := by
  have hx0 : 0 ≤ x := le_trans h0 hlo
  have habs : |x| ≤ 1 := by rw [abs_of_nonneg hx0]; linarith
  have hb := Real.sin_bound habs
  rw [abs_of_nonneg hx0] at hb
  rcases abs_le.1 hb with ⟨hb1, hb2⟩
  have h3l : lo ^ 3 ≤ x ^ 3 := pow_le_pow_left₀ h0 hlo 3
  have h3h : x ^ 3 ≤ hi ^ 3 := pow_le_pow_left₀ hx0 hhi 3
  have h4h : x ^ 4 ≤ hi ^ 4 := pow_le_pow_left₀ hx0 hhi 4
  have h40 : (0 : ℝ) ≤ x ^ 4 := by positivity
  constructor <;> nlinarith

theorem cos_eq_one_sub_two_sin_sq (x : ℝ) :
    Real.cos x = 1 - 2 * Real.sin (x / 2) ^ 2 := by
  have h := Real.sin_sq_eq_half_sub (x / 2)
  rw [show 2 * (x / 2) = x by ring] at h
  linarith

theorem sin_eq_double (x : ℝ) :
    Real.sin x = 2 * Real.sin (x / 2) * Real.cos (x / 2) := by
  have h := Real.sin_two_mul (x / 2)
  rw [show 2 * (x / 2) = x by ring] at h
  linarith

theorem mul_bounds {s c a b a2 b2 : ℝ} (h0a : 0 ≤ a) (h0b : 0 ≤ b)
    (h1 : a ≤ s) (h2 : s ≤ a2) (h3 : b ≤ c) (h4 : c ≤ b2) :
    a * b ≤ s * c ∧ s * c ≤ a2 * b2 :=
  ⟨mul_le_mul h1 h3 h0b (by linarith),
   mul_le_mul h2 h4 (by linarith) (by linarith)⟩

theorem sq_bounds {s a b : ℝ} (h0 : 0 ≤ a) (h1 : a ≤ s) (h2 : s ≤ b) :
    a ^ 2 ≤ s ^ 2 ∧ s ^ 2 ≤ b ^ 2 :=
  ⟨pow_le_pow_left₀ h0 h1 2, pow_le_pow_left₀ (le_trans h0 h1) h2 2⟩

theorem sin_dphi2_bounds :
    0.058431981 ≤ Real.sin (6.6997 * π / 360) ∧
      Real.sin (6.6997 * π / 360) ≤ 0.058433219 := by
  have h1 := Real.pi_gt_d6
  have h2 := Real.pi_lt_d6
  exact @sin_taylor_bounds (6.6997 * π / 360) 0.058465899 0.058465919
    0.058431981 0.058433219 (by norm_num) (by nlinarith) (by nlinarith)
    (by norm_num) (by norm_num) (by norm_num)

theorem sin_p14_bounds :
    0.176350180 ≤ Real.sin (40.6413 * π / 720) ∧
      Real.sin (40.6413 * π / 720) ≤ 0.176453247 := by
  have h1 := Real.pi_gt_d6
  have h2 := Real.pi_lt_d6
  exact @sin_taylor_bounds (40.6413 * π / 720) 0.177331087 0.177331144
    0.176350180 0.176453247 (by norm_num) (by nlinarith) (by nlinarith)
    (by norm_num) (by norm_num) (by norm_num)

theorem sin_p18_bounds :
    0.088546148 ≤ Real.sin (40.6413 * π / 1440) ∧
      Real.sin (40.6413 * π / 1440) ≤ 0.088552616 := by
  have h1 := Real.pi_gt_d6
  have h2 := Real.pi_lt_d6
  exact @sin_taylor_bounds (40.6413 * π / 1440) 0.088665543 0.088665572
    0.088546148 0.088552616 (by norm_num) (by nlinarith) (by nlinarith)
    (by norm_num) (by norm_num) (by norm_num)

theorem sin_p24_bounds :
    0.147531707 ≤ Real.sin (33.9416 * π / 720) ∧
      Real.sin (33.9416 * π / 720) ≤ 0.147581867 := by
  have h1 := Real.pi_gt_d6
  have h2 := Real.pi_lt_d6
  exact @sin_taylor_bounds (33.9416 * π / 720) 0.148098137 0.148098185
    0.147531707 0.147581867 (by norm_num) (by nlinarith) (by nlinarith)
    (by norm_num) (by norm_num) (by norm_num)

theorem sin_p28_bounds :
    0.073979830 ≤ Real.sin (33.9416 * π / 1440) ∧
      Real.sin (33.9416 * π / 1440) ≤ 0.073982988 := by
  have h1 := Real.pi_gt_d6
  have h2 := Real.pi_lt_d6
  exact @sin_taylor_bounds (33.9416 * π / 1440) 0.074049068 0.074049093
    0.073979830 0.073982988 (by norm_num) (by nlinarith) (by nlinarith)
    (by norm_num) (by norm_num) (by norm_num)

theorem sin_q1_bounds :
    0.193431097 ≤ Real.sin (44.6304 * π / 720) ∧
      Real.sin (44.6304 * π / 720) ≤ 0.193580966 := by
  have h1 := Real.pi_gt_d6
  have h2 := Real.pi_lt_d6
  exact @sin_taylor_bounds (44.6304 * π / 720) 0.194736816 0.194736879
    0.193431097 0.193580966 (by norm_num) (by nlinarith) (by nlinarith)
    (by norm_num) (by norm_num) (by norm_num)

theorem sin_q2_bounds :
    0.097209874 ≤ Real.sin (44.6304 * π / 1440) ∧
      Real.sin (44.6304 * π / 1440) ≤ 0.097219270 := by
  have h1 := Real.pi_gt_d6
  have h2 := Real.pi_lt_d6
  exact @sin_taylor_bounds (44.6304 * π / 1440) 0.097368408 0.097368440
    0.097209874 0.097219270 (by norm_num) (by nlinarith) (by nlinarith)
    (by norm_num) (by norm_num) (by norm_num)

theorem cos_p14_bounds :
    0.984316868 ≤ Real.cos (40.6413 * π / 720) ∧
      Real.cos (40.6413 * π / 720) ≤ 0.984319160 := by
  rw [cos_eq_one_sub_two_sin_sq, show (40.6413 * π / 720) / 2 = 40.6413 * π / 1440 by ring]
  have h := sin_p18_bounds
  have hsq := sq_bounds (by norm_num) h.1 h.2
  constructor <;> linarith [hsq.1, hsq.2]

theorem sin_p12_bounds :
    0.347168913 ≤ Real.sin (40.6413 * π / 360) ∧
      Real.sin (40.6413 * π / 360) ≤ 0.347372624 := by
  rw [sin_eq_double, show (40.6413 * π / 360) / 2 = 40.6413 * π / 720 by ring]
  have h1 := sin_p14_bounds
  have h2 := cos_p14_bounds
  have hm := mul_bounds (by norm_num) (by norm_num) h1.1 h1.2 h2.1 h2.2
  constructor <;> linarith [hm.1, hm.2]

theorem cos_phi1_bounds :
    0.758664520 ≤ Real.cos (40.6413 * π / 180) ∧
      Real.cos (40.6413 * π / 180) ≤ 0.758947492 := by
  rw [cos_eq_one_sub_two_sin_sq, show (40.6413 * π / 180) / 2 = 40.6413 * π / 360 by ring]
  have h := sin_p12_bounds
  have hsq := sq_bounds (by norm_num) h.1 h.2
  constructor <;> linarith [hsq.1, hsq.2]

theorem cos_p24_bounds :
    0.989053034 ≤ Real.cos (33.9416 * π / 720) ∧
      Real.cos (33.9416 * π / 720) ≤ 0.989053970 := by
  rw [cos_eq_one_sub_two_sin_sq, show (33.9416 * π / 720) / 2 = 33.9416 * π / 1440 by ring]
  have h := sin_p28_bounds
  have hsq := sq_bounds (by norm_num) h.1 h.2
  constructor <;> linarith [hsq.1, hsq.2]

theorem sin_p22_bounds :
    0.291833364 ≤ Real.sin (33.9416 * π / 360) ∧
      Real.sin (33.9416 * π / 360) ≤ 0.291932863 := by
  rw [sin_eq_double, show (33.9416 * π / 360) / 2 = 33.9416 * π / 720 by ring]
  have h1 := sin_p24_bounds
  have h2 := cos_p24_bounds
  have hm := mul_bounds (by norm_num) (by norm_num) h1.1 h1.2 h2.1 h2.2
  constructor <;> linarith [hm.1, hm.2]

theorem cos_phi2_bounds :
    0.829550407 ≤ Real.cos (33.9416 * π / 180) ∧
      Real.cos (33.9416 * π / 180) ≤ 0.829666576 := by
  rw [cos_eq_one_sub_two_sin_sq, show (33.9416 * π / 180) / 2 = 33.9416 * π / 360 by ring]
  have h := sin_p22_bounds
  have hsq := sq_bounds (by norm_num) h.1 h.2
  constructor <;> linarith [hsq.1, hsq.2]

theorem cos_q1_bounds :
    0.981096827 ≤ Real.cos (44.6304 * π / 720) ∧
      Real.cos (44.6304 * π / 720) ≤ 0.981100481 := by
  rw [cos_eq_one_sub_two_sin_sq, show (44.6304 * π / 720) / 2 = 44.6304 * π / 1440 by ring]
  have h := sin_q2_bounds
  have hsq := sq_bounds (by norm_num) h.1 h.2
  constructor <;> linarith [hsq.1, hsq.2]

theorem sin_dlon2_bounds :
    0.379549271 ≤ Real.sin (44.6304 * π / 360) ∧
      Real.sin (44.6304 * π / 360) ≤ 0.379844758 := by
  rw [sin_eq_double, show (44.6304 * π / 360) / 2 = 44.6304 * π / 720 by ring]
  have h1 := sin_q1_bounds
  have h2 := cos_q1_bounds
  have hm := mul_bounds (by norm_num) (by norm_num) h1.1 h1.2 h2.1 h2.2
  constructor <;> linarith [hm.1, hm.2]

theorem hav_jfk_lax_eq :
    GeoMath.hav KJFK.coord KLAX.coord =
      Real.sin (6.6997 * π / 360) ^ 2 +
        Real.cos (40.6413 * π / 180) * Real.cos (33.9416 * π / 180) *
          Real.sin (44.6304 * π / 360) ^ 2 := by
  show GeoMath.hav ⟨40.6413, -73.7781⟩ ⟨33.9416, -118.4085⟩ = _
  unfold GeoMath.hav GeoMath.toRadians
  have hd1 : ((33.9416 : ℝ) - 40.6413) * π / 180 / 2 = -(6.6997 * π / 360) := by
    rw [show (33.9416 : ℝ) - 40.6413 = -6.6997 by norm_num]
    ring
  have hd2 : ((-118.4085 : ℝ) - -73.7781) * π / 180 / 2 = -(44.6304 * π / 360) := by
    rw [show (-118.4085 : ℝ) - -73.7781 = -44.6304 by norm_num]
    ring
  show Real.sin (((33.9416 : ℝ) - 40.6413) * π / 180 / 2) ^ 2 +
      Real.cos ((40.6413 : ℝ) * π / 180) * Real.cos ((33.9416 : ℝ) * π / 180) *
        Real.sin (((-118.4085 : ℝ) - -73.7781) * π / 180 / 2) ^ 2 = _
  rw [hd1, hd2, Real.sin_neg, Real.sin_neg]
  ring

theorem hav_jfk_lax_bounds :
    0.094077044 ≤ GeoMath.hav KJFK.coord KLAX.coord ∧
      GeoMath.hav KJFK.coord KLAX.coord ≤ 0.094265 := by
  rw [hav_jfk_lax_eq]
  have ha := sin_dphi2_bounds
  have hc1 := cos_phi1_bounds
  have hc2 := cos_phi2_bounds
  have hs2 := sin_dlon2_bounds
  have hasq := sq_bounds (by norm_num) ha.1 ha.2
  have hs2sq := sq_bounds (by norm_num) hs2.1 hs2.2
  have hcc := mul_bounds (by norm_num) (by norm_num) hc1.1 hc1.2 hc2.1 hc2.2
  have hccs := mul_bounds (by norm_num) (by positivity) hcc.1 hcc.2 hs2sq.1 hs2sq.2
  constructor <;> linarith [hasq.1, hasq.2, hccs.1, hccs.2]

theorem sin_1558_bounds :
    0.155139006 ≤ Real.sin 0.1558 ∧ Real.sin 0.1558 ≤ 0.155200383 :=
  @sin_taylor_bounds (0.1558 : ℝ) 0.1558 0.1558 0.155139006 0.155200383
    (by norm_num) le_rfl le_rfl (by norm_num) (by norm_num) (by norm_num)

theorem sin_0779_bounds :
    0.077819293 ≤ Real.sin 0.0779 ∧ Real.sin 0.0779 ≤ 0.077823130 :=
  @sin_taylor_bounds (0.0779 : ℝ) 0.0779 0.0779 0.077819293 0.077823130
    (by norm_num) le_rfl le_rfl (by norm_num) (by norm_num) (by norm_num)

theorem cos_1558_bounds :
    0.987887120 ≤ Real.cos 0.1558 ∧ Real.cos 0.1558 ≤ 0.987888316 := by
  rw [cos_eq_one_sub_two_sin_sq, show (0.1558 : ℝ) / 2 = 0.0779 by norm_num]
  have h := sin_0779_bounds
  have hsq := sq_bounds (by norm_num) h.1 h.2
  constructor <;> linarith [hsq.1, hsq.2]

theorem sin_3116_bounds :
    0.306519651 ≤ Real.sin 0.3116 ∧ Real.sin 0.3116 ≤ 0.306641291 := by
  rw [sin_eq_double, show (0.3116 : ℝ) / 2 = 0.1558 by norm_num]
  have h1 := sin_1558_bounds
  have h2 := cos_1558_bounds
  have hm := mul_bounds (by norm_num) (by norm_num) h1.1 h1.2 h2.1 h2.2
  constructor <;> linarith [hm.1, hm.2]

theorem sin_1561_bounds :
    0.155435121 ≤ Real.sin 0.1561 ∧ Real.sin 0.1561 ≤ 0.155496972 :=
  @sin_taylor_bounds (0.1561 : ℝ) 0.1561 0.1561 0.155435121 0.155496972
    (by norm_num) le_rfl le_rfl (by norm_num) (by norm_num) (by norm_num)

theorem sin_07805_bounds :
    0.077968822 ≤ Real.sin 0.07805 ∧ Real.sin 0.07805 ≤ 0.077972689 :=
  @sin_taylor_bounds (0.07805 : ℝ) 0.07805 0.07805 0.077968822 0.077972689
    (by norm_num) le_rfl le_rfl (by norm_num) (by norm_num) (by norm_num)

theorem cos_1561_bounds :
    0.987840519 ≤ Real.cos 0.1561 ∧ Real.cos 0.1561 ≤ 0.987841726 := by
  rw [cos_eq_one_sub_two_sin_sq, show (0.1561 : ℝ) / 2 = 0.07805 by norm_num]
  have h := sin_07805_bounds
  have hsq := sq_bounds (by norm_num) h.1 h.2
  constructor <;> linarith [hsq.1, hsq.2]

theorem sin_3122_bounds :
    0.307090221 ≤ Real.sin 0.3122 ∧ Real.sin 0.3122 ≤ 0.307212795 := by
  rw [sin_eq_double, show (0.3122 : ℝ) / 2 = 0.1561 by norm_num]
  have h1 := sin_1561_bounds
  have h2 := cos_1561_bounds
  have hm := mul_bounds (by norm_num) (by norm_num) h1.1 h1.2 h2.1 h2.2
  constructor <;> linarith [hm.1, hm.2]

theorem arcsin_sqrt_hav_bounds :
    0.3116 ≤ Real.arcsin (Real.sqrt (GeoMath.hav KJFK.coord KLAX.coord)) ∧
      Real.arcsin (Real.sqrt (GeoMath.hav KJFK.coord KLAX.coord)) ≤ 0.3122 := by
  have hh := hav_jfk_lax_bounds
  have hlo := sin_3116_bounds
  have hhi := sin_3122_bounds
  have hpi := Real.pi_gt_d6
  constructor
  · have h1 : Real.sin 0.3116 ≤ Real.sqrt (GeoMath.hav KJFK.coord KLAX.coord) := by
      apply Real.le_sqrt_of_sq_le
      have hsq := sq_bounds (by norm_num) hlo.1 hlo.2
      nlinarith [hsq.2, hh.1]
    have h2 := Real.monotone_arcsin h1
    rw [Real.arcsin_sin (by nlinarith) (by nlinarith)] at h2
    exact h2
  · have h1 : Real.sqrt (GeoMath.hav KJFK.coord KLAX.coord) ≤ Real.sin 0.3122 := by
      have hsq := sq_bounds (by norm_num) hhi.1 hhi.2
      have hle : GeoMath.hav KJFK.coord KLAX.coord ≤ Real.sin 0.3122 ^ 2 := by
        nlinarith [hsq.1, hh.2]
      calc Real.sqrt (GeoMath.hav KJFK.coord KLAX.coord)
          ≤ Real.sqrt (Real.sin 0.3122 ^ 2) := Real.sqrt_le_sqrt hle
        _ = Real.sin 0.3122 := Real.sqrt_sq (by linarith [hhi.1])
    have h2 := Real.monotone_arcsin h1
    rw [Real.arcsin_sin (by nlinarith) (by nlinarith)] at h2
    exact h2

theorem dist_jfk_lax_bounds :
    2143.8 ≤ GeoMath.distance KJFK.coord KLAX.coord ∧
      GeoMath.distance KJFK.coord KLAX.coord ≤ 2148 := by
  rw [GeoMath.distance_eq_hav]
  have h := arcsin_sqrt_hav_bounds
  unfold GeoMath.earthRadiusNm
  constructor <;> nlinarith [h.1, h.2]

theorem calculate_ok_inversion (st : Option SpatialIndex) (plan : FlightPlan)
    (r : FlightRoute) (h : aerobase_calculate_route st plan = .ok r) :
    ∃ idx coords, st = some idx ∧
      resolvePath idx (routePath plan) = .ok coords ∧ 0 < plan.cruise_speed ∧
      r = ⟨plan, legSum coords, ⌈legSum coords / (plan.cruise_speed : ℝ) * 60⌉⟩ := by
  cases st with
  | none => simp [aerobase_calculate_route] at h
  | some idx =>
    have h' : RouteEvaluator.evaluate idx plan = .ok r := h
    cases hres : resolvePath idx (routePath plan) with
    | error k =>
      unfold RouteEvaluator.evaluate at h'
      rw [hres] at h'
      simp at h'
    | ok coords =>
      unfold RouteEvaluator.evaluate at h'
      rw [hres] at h'
      have h'' : (if plan.cruise_speed ≤ 0 then
          (Except.error AeroError.invalidInput : Except AeroError FlightRoute)
        else Except.ok ⟨plan, legSum coords,
          ⌈legSum coords / (plan.cruise_speed : ℝ) * 60⌉⟩) = .ok r := h'
      split_ifs at h'' with hs
      cases h''
      exact ⟨idx, coords, rfl, hres, by omega, rfl⟩

/-- Total distance and estimated time of the evaluated KJFK-to-KLAX
round-trip plan. -/
noncomputable def routeJfkLax : FlightRoute :=
  ⟨planJfkLax, legSum [KJFK.coord, KLAX.coord],
    ⌈legSum [KJFK.coord, KLAX.coord] / ((planJfkLax.cruise_speed : Int) : ℝ) * 60⌉⟩

theorem calculate_jfk_lax :
    aerobase_calculate_route (some idxJfkLax) planJfkLax = .ok routeJfkLax := by
  show RouteEvaluator.evaluate idxJfkLax planJfkLax = _
  unfold RouteEvaluator.evaluate
  rw [show resolvePath idxJfkLax (routePath planJfkLax) =
    .ok [KJFK.coord, KLAX.coord] from rfl]
  rfl

/-- C3: for every successful route evaluation the estimated time is the
ceiling of total_distance divided by the cruise speed, converted to
minutes (a partial minute counts as a full one); and the concrete KJFK to
KLAX plan with the empty waypoint list and cruise speed 500 knots yields a
total distance within one percent of 2144 nautical miles and an estimated
time of exactly 258 minutes. -/
theorem C3_ceiling_time (st : Option SpatialIndex) (plan : FlightPlan) :
    (∀ r, aerobase_calculate_route st plan = .ok r →
      r.estimated_time = ⌈r.total_distance / (plan.cruise_speed : ℝ) * 60⌉)
    ∧ (∃ r, aerobase_calculate_route (some idxJfkLax) planJfkLax = .ok r ∧
        |r.total_distance - 2144| ≤ 2144 / 100 ∧ r.estimated_time = 258) := by
  constructor
  · intro r h
    rcases calculate_ok_inversion st plan r h with ⟨idx, coords, -, -, -, hr⟩
    rw [hr]
  · refine ⟨routeJfkLax, calculate_jfk_lax, ?_, ?_⟩
    · have hb := dist_jfk_lax_bounds
      have htd : routeJfkLax.total_distance =
          GeoMath.distance KJFK.coord KLAX.coord := by
        show legSum [KJFK.coord, KLAX.coord] = _
        rw [legSum, legSum]
        ring
      rw [htd]
      rw [abs_le]
      constructor <;> nlinarith [hb.1, hb.2]
    · have hb := dist_jfk_lax_bounds
      have htd : legSum [KJFK.coord, KLAX.coord] =
          GeoMath.distance KJFK.coord KLAX.coord := by
        rw [legSum, legSum]
        ring
      show (⌈legSum [KJFK.coord, KLAX.coord] /
        ((planJfkLax.cruise_speed : Int) : ℝ) * 60⌉ : Int) = 258
      rw [htd]
      rw [Int.ceil_eq_iff]
      have hsp : ((planJfkLax.cruise_speed : Int) : ℝ) = 500 := by
        norm_num [planJfkLax]
      rw [hsp]
      constructor
      · push_cast
        nlinarith [hb.1]
      · push_cast
        nlinarith [hb.2]

/-- Witness for C3: the ceiling formula instantiated on the concrete
round-trip evaluation. -/
theorem C3_witness :
    routeJfkLax.estimated_time =
      ⌈routeJfkLax.total_distance / ((planJfkLax.cruise_speed : Int) : ℝ) * 60⌉ :=
  (C3_ceiling_time (some idxJfkLax) planJfkLax).1 routeJfkLax calculate_jfk_lax
